import Mathlib

/-!
Formal model of the password-evaluation engine in
`src/01-password-checker/password_checker.py`.

Modelling conventions:
* a Python `str` is modelled as `List Char`; all inputs in the claims are ASCII,
  and the source's character classes (`[a-z]`, `[A-Z]`, `[0-9]`, `[^a-zA-Z0-9]`)
  are the ASCII classes `Char.isLower`, `Char.isUpper`, `Char.isDigit`,
  `!Char.isAlphanum`;
* the Python `set` of common passwords is modelled as a `List (List Char)`:
  `evaluate_password` iterates over `list(common_passwords)[:5000]`, so the
  model fixes a definite iteration order (the source relies on the arbitrary
  set order; the list model makes that order explicit);
* the float entropy value `len(pw) * math.log2(pools)` is modelled exactly as a
  real number (`estimate_entropy_bits`); the two threshold tests the scoring
  code performs on it (`entropy >= 80`, `entropy < 50`) are embedded by the
  equivalent exact integer comparisons `2 ^ 80 ≤ pools ^ len` and
  `pools ^ len < 2 ^ 50` (`log2` is strictly monotone; the equivalence is
  proved below in `entropy_ge_iff`), which keeps `evaluate_password` computable;
* file reading in `load_common_passwords` is modelled by an explicit
  file-system oracle `String → ReadResult` distinguishing a missing file, an
  I/O error (`OSError`), and a successful read of a list of lines.
-/

namespace PasswordChecker

/-- Seed set `DEFAULT_COMMON_PASSWORDS` (source lines 32-36), in literal order. -/
def default_common_passwords : List (List Char) :=
  ["password".toList, "123456".toList, "123456789".toList, "qwerty".toList,
   "letmein".toList, "admin".toList, "welcome".toList, "iloveyou".toList,
   "monkey".toList, "football".toList]

/-- `KEYBOARD_SEQS` (source line 38). -/
def KEYBOARD_SEQS : List (List Char) :=
  ["qwertyuiop".toList, "asdfghjkl".toList, "zxcvbnm".toList, "1234567890".toList]

/-- `COMMON_SUBSTITUTIONS` (source lines 39-48), in insertion order (Python
dicts iterate in insertion order). -/
def COMMON_SUBSTITUTIONS : List (Char × Char) :=
  [('@', 'a'), ('0', 'o'), ('1', 'l'), ('!', 'i'), ('$', 's'),
   ('3', 'e'), ('5', 's'), ('7', 't')]

/-- The evaluation result (source lines 51-57).  `score` is an integer
(clamped to [0,100] by `evaluate_password`); the float field `entropy_bits`
is modelled separately by `result_entropy_bits` below, since it is the one
non-integer field. -/
structure CheckResult where
  score : ℤ
  rating : String
  issues : List String
  suggestions : List String
deriving DecidableEq, Repr

/-- The file-system oracle outcome for one path: the path does not exist,
reading raised `OSError`, or reading succeeded with the given lines. -/
inductive ReadResult where
  | missing : ReadResult
  | ioError : ReadResult
  | ok : List (List Char) → ReadResult

/-- `line.strip()` for one line: drop leading and trailing whitespace. -/
def strip (s : List Char) : List Char :=
  ((s.dropWhile Char.isWhitespace).reverse.dropWhile Char.isWhitespace).reverse

/-- The body of the line loop in `load_common_passwords` (source lines 70-73):
keep each line whose stripped form is non-empty and does not start with `#`,
lower-cased. -/
def process_lines (lines : List (List Char)) : List (List Char) :=
  lines.filterMap (fun line =>
    match strip line with
    | [] => none
    | c :: rest => if c = '#' then none else some ((c :: rest).map Char.toLower))

/-- `load_common_passwords` (source lines 60-77).  `none` and the empty string
are falsy paths; a missing path or an `OSError` falls back silently to the
seed set; a successful read unions (appends) the processed lines. -/
def load_common_passwords (path : Option String) (fs : String → ReadResult) :
    List (List Char) :=
  match path with
  | none => default_common_passwords
  | some p =>
    if p = "" then default_common_passwords
    else
      match fs p with
      | ReadResult.missing => default_common_passwords
      | ReadResult.ioError => default_common_passwords
      | ReadResult.ok lines => default_common_passwords ++ process_lines lines

/-- `s.replace(sym, repl)` for single characters: literal character rewriting. -/
def replaceChar (s : List Char) (sym repl : Char) : List Char :=
  s.map (fun c => if c = sym then repl else c)

/-- `normalize_for_common_checks` (source lines 80-84): strip, lower-case,
then apply each substitution to the result of the previous one, in table
order. -/
def normalize_for_common_checks (pw : List Char) : List Char :=
  COMMON_SUBSTITUTIONS.foldl (fun s p => replaceChar s p.1 p.2)
    ((strip pw).map Char.toLower)

/-- Python `needle in hay` on strings: substring containment. -/
def isSubstring (needle hay : List Char) : Bool :=
  (List.range (hay.length + 1)).any (fun i => needle.isPrefixOf (hay.drop i))

/-- `has_keyboard_sequence` (source lines 87-94).  The range bound is written
`row.length + 1 - min_len` so that a row shorter than `min_len` yields no
windows, exactly as Python's `range(0, len(row) - min_len + 1)` does. -/
def has_keyboard_sequence (pw_lower : List Char) (min_len : Nat) : Bool :=
  KEYBOARD_SEQS.any (fun row =>
    (List.range (row.length + 1 - min_len)).any (fun i =>
      let chunk := (row.drop i).take min_len
      isSubstring chunk pw_lower || isSubstring chunk.reverse pw_lower))

/-- `has_simple_sequence` (source lines 97-111): some length-`min_len` window
whose consecutive character-code differences are all `1` or all `-1`. -/
def has_simple_sequence (pw : List Char) (min_len : Nat) : Bool :=
  if pw.length < min_len then false
  else
    (List.range (pw.length + 1 - min_len)).any (fun i =>
      let window := (pw.drop i).take min_len
      let diffs := List.zipWith
        (fun a b => (b.toNat : ℤ) - (a.toNat : ℤ)) window window.tail
      diffs.all (fun d => d = 1) || diffs.all (fun d => d = -1))

/-- Length of the run of copies of `c` at the head of the list. -/
def run_length (c : Char) : List Char → Nat
  | [] => 0
  | x :: xs => if x = c then run_length c xs + 1 else 0

/-- Leftmost maximal run of length at least 4, if any: the match of the regex
search `(.)\1{3,}`. -/
def first_long_run : List Char → Option Nat
  | [] => none
  | c :: rest =>
    if 4 ≤ 1 + run_length c rest then some (1 + run_length c rest)
    else first_long_run rest

/-- `repeated_characters` (source lines 114-117): whether a run of 4+ equal
consecutive characters exists, and the length of the leftmost such run. -/
def repeated_characters (pw : List Char) : Bool × Nat :=
  match first_long_run pw with
  | some n => (true, n)
  | none => (false, 0)

/-- `re.search(r"[a-z]", pw)` (source lines 126, 168). -/
def has_lower (pw : List Char) : Bool := pw.any Char.isLower

/-- `re.search(r"[A-Z]", pw)` (source lines 128, 169). -/
def has_upper (pw : List Char) : Bool := pw.any Char.isUpper

/-- `re.search(r"[0-9]", pw)` (source lines 130, 170). -/
def has_digit (pw : List Char) : Bool := pw.any Char.isDigit

/-- `re.search(r"[^a-zA-Z0-9]", pw)` (source lines 132, 171): the symbol class
is the complement of the other three. -/
def has_symbol (pw : List Char) : Bool := pw.any (fun c => !c.isAlphanum)

/-- The character-pool size of `estimate_entropy_bits` (source lines 125-134). -/
def entropy_pool (pw : List Char) : Nat :=
  (if has_lower pw then 26 else 0) + (if has_upper pw then 26 else 0) +
  (if has_digit pw then 10 else 0) + (if has_symbol pw then 33 else 0)

/-- `estimate_entropy_bits` (source lines 120-139), with the float arithmetic
read as exact real arithmetic: `len(pw) * math.log2(pools)`. -/
noncomputable def estimate_entropy_bits (pw : List Char) : ℝ :=
  if pw = [] then 0
  else if entropy_pool pw = 0 then 0
  else (pw.length : ℝ) * Real.logb 2 (entropy_pool pw)

/-- Python `round(x, 2)`: rounding to two decimal places (tie behaviour is
irrelevant to every claim; half-up is used here). -/
noncomputable def round2 (x : ℝ) : ℝ := (round (100 * x) : ℤ) / 100

/-- The `entropy_bits` field of the result (source lines 162 and 264): `0.0`
for the empty password, otherwise the entropy rounded to 2 decimals. -/
noncomputable def result_entropy_bits (pw : List Char) : ℝ :=
  if pw = [] then 0 else round2 (estimate_entropy_bits pw)

/-- `rate_from_score` (source lines 142-151). -/
def rate_from_score (score : ℤ) : String :=
  if 85 ≤ score then "Very Strong"
  else if 70 ≤ score then "Strong"
  else if 50 ≤ score then "Moderate"
  else if 30 ≤ score then "Weak"
  else "Very Weak"

/-- Rank of the five rating labels in the order
Very Weak < Weak < Moderate < Strong < Very Strong. -/
def ratingRank (r : String) : Nat :=
  if r = "Very Weak" then 0
  else if r = "Weak" then 1
  else if r = "Moderate" then 2
  else if r = "Strong" then 3
  else if r = "Very Strong" then 4
  else 5

/-- Length points (source lines 177-184). -/
def length_points (len : Nat) : ℤ :=
  if 16 ≤ len then 40
  else if 12 ≤ len then 30
  else if 10 ≤ len then 20
  else if 8 ≤ len then 10
  else 0

/-- Length issue (source line 186, appended only in the final `else`). -/
def length_issues (len : Nat) : List String :=
  if len < 8 then ["Too short (aim for at least 12 characters)."] else []

/-- Length suggestion (source line 187). -/
def length_suggestions (len : Nat) : List String :=
  if len < 8 then ["Use 12–16+ characters (a passphrase works well)."] else []

/-- `sum([has_lower, has_upper, has_digit, has_symbol])` (source line 190). -/
def variety_count (pw : List Char) : Nat :=
  (if has_lower pw then 1 else 0) + (if has_upper pw then 1 else 0) +
  (if has_digit pw then 1 else 0) + (if has_symbol pw then 1 else 0)

/-- `score += variety * 10` (source line 191). -/
def variety_points (pw : List Char) : ℤ := (variety_count pw : ℤ) * 10

/-- Per-class issues for absent classes (source lines 192-203), in source
order. -/
def variety_issues (pw : List Char) : List String :=
  (if has_lower pw then [] else ["No lowercase letters."]) ++
  (if has_upper pw then [] else ["No uppercase letters."]) ++
  (if has_digit pw then [] else ["No digits."]) ++
  (if has_symbol pw then [] else ["No symbols."])

/-- Per-class suggestions for absent classes (source lines 192-203). -/
def variety_suggestions (pw : List Char) : List String :=
  (if has_lower pw then [] else ["Add lowercase letters (a–z)."]) ++
  (if has_upper pw then [] else ["Add uppercase letters (A–Z)."]) ++
  (if has_digit pw then [] else ["Add digits (0–9)."]) ++
  (if has_symbol pw then [] else ["Add symbols (e.g., !@#$%)."])

/-- Exact common-password penalty (source lines 208-211). -/
def exact_penalty (cs : List (List Char)) (normalized : List Char) : ℤ :=
  if normalized ∈ cs then -40 else 0

/-- Exact common-password issue (source line 209). -/
def exact_issues (cs : List (List Char)) (normalized : List Char) : List String :=
  if normalized ∈ cs then ["Appears in common password lists."] else []

/-- Exact common-password suggestion (source line 210). -/
def exact_suggestions (cs : List (List Char)) (normalized : List Char) : List String :=
  if normalized ∈ cs then ["Avoid common passwords; use a unique passphrase."] else []

/-- The common-substring scan condition (source lines 214-219): among the
first 5000 entries of the common list, some entry of length at least 6 is a
substring of the normalized password.  The loop breaks at its first hit, so
its observable effect (one issue, one suggestion, one -20) is exactly this
existence test. -/
def common_substring_hit (cs : List (List Char)) (normalized : List Char) : Bool :=
  (cs.take 5000).any (fun common =>
    decide (6 ≤ common.length) && isSubstring common normalized)

/-- Common-substring penalty (source line 218): -20, applied at most once. -/
def substring_penalty (cs : List (List Char)) (normalized : List Char) : ℤ :=
  if common_substring_hit cs normalized then -20 else 0

/-- Common-substring issue (source line 216), appended at most once. -/
def substring_issues (cs : List (List Char)) (normalized : List Char) : List String :=
  if common_substring_hit cs normalized
  then ["Contains a common password word/pattern."] else []

/-- Common-substring suggestion (source line 217). -/
def substring_suggestions (cs : List (List Char)) (normalized : List Char) : List String :=
  if common_substring_hit cs normalized
  then ["Remove common words (e.g., \x27password\x27, \x27admin\x27) and use a unique phrase."]
  else []

/-- `pw.lower()` (source line 222). -/
def toLowerStr (pw : List Char) : List Char := pw.map Char.toLower

/-- The combined sequence condition (source line 223): keyboard or monotonic
sequence on the lower-cased password, window length 4. -/
def sequence_hit (pw : List Char) : Bool :=
  has_keyboard_sequence (toLowerStr pw) 4 || has_simple_sequence (toLowerStr pw) 4

/-- Sequence penalty (source line 226): a single -15 even if both detectors
fire, since the source tests their disjunction once. -/
def sequence_penalty (pw : List Char) : ℤ :=
  if sequence_hit pw then -15 else 0

/-- Sequence issue (source line 224), appended at most once. -/
def sequence_issues (pw : List Char) : List String :=
  if sequence_hit pw
  then ["Contains an easy sequence (keyboard or ordered characters)."] else []

/-- Sequence suggestion (source line 225). -/
def sequence_suggestions (pw : List Char) : List String :=
  if sequence_hit pw then ["Avoid sequences like 1234, abcd, qwer."] else []

/-- Repeat penalty (source line 233). -/
def repeat_penalty (pw : List Char) : ℤ :=
  if (repeated_characters pw).1 then -10 else 0

/-- Repeat issue (source line 231), quoting `min(rep_len, 6)` asterisks. -/
def repeat_issues (pw : List Char) : List String :=
  if (repeated_characters pw).1
  then ["Contains repeated characters (e.g., \x27" ++
        String.mk (List.replicate (min (repeated_characters pw).2 6) '*') ++ "\x27)."]
  else []

/-- Repeat suggestion (source line 232). -/
def repeat_suggestions (pw : List Char) : List String :=
  if (repeated_characters pw).1 then ["Avoid long repeats like aaaa or 1111."] else []

/-- `re.fullmatch(r"[A-Za-z]+[0-9]{1,4}[!@#$%]?", pw)` (source line 236).
Since the three classes are disjoint, the regex (greedy, with backtracking)
matches the whole string iff the maximal alphabetic prefix is non-empty, the
following maximal digit run has length 1..4, and what remains is empty or a
single symbol among `!@#$%`. -/
def template_match (pw : List Char) : Bool :=
  let rest1 := pw.dropWhile Char.isAlpha
  let rest2 := rest1.dropWhile Char.isDigit
  decide ((pw.takeWhile Char.isAlpha) ≠ []) &&
  decide (1 ≤ (rest1.takeWhile Char.isDigit).length) &&
  decide ((rest1.takeWhile Char.isDigit).length ≤ 4) &&
  (match rest2 with
   | [] => true
   | [c] => c ∈ ['!', '@', '#', '$', '%']
   | _ :: _ :: _ => false)

/-- Template penalty (source line 239). -/
def template_penalty (pw : List Char) : ℤ :=
  if template_match pw then -10 else 0

/-- Template issue (source line 237). -/
def template_issues (pw : List Char) : List String :=
  if template_match pw then ["Looks like a common pattern (word + digits)."] else []

/-- Template suggestion (source line 238). -/
def template_suggestions (pw : List Char) : List String :=
  if template_match pw
  then ["Use a passphrase or mix words in a less predictable way."] else []

/-- Entropy adjustment (source lines 242-247).  The source compares the float
entropy to 80 and 50; since `entropy = len * log2(pool)` and `log2` is
strictly monotone, `entropy ≥ 80` iff `2 ^ 80 ≤ pool ^ len` and
`entropy < 50` iff `pool ^ len < 2 ^ 50`.  The equivalence with the real-valued
`estimate_entropy_bits` is proved in `entropy_ge_iff`. -/
def entropy_adjustment (pw : List Char) : ℤ :=
  if 2 ^ 80 ≤ entropy_pool pw ^ pw.length then 10
  else if entropy_pool pw ^ pw.length < 2 ^ 50 then -10
  else 0

/-- Entropy suggestion (source line 247), appended exactly when the `-10`
branch is taken (`entropy < 50` already excludes `entropy ≥ 80`). -/
def entropy_suggestions (pw : List Char) : List String :=
  if entropy_pool pw ^ pw.length < 2 ^ 50
  then ["Increase complexity and length to raise entropy."] else []

/-- The suggestion de-duplication loop (source lines 254-259): keep the first
occurrence of each string, in order. -/
def dedup_keep_first (seen : List String) : List String → List String
  | [] => []
  | s :: rest =>
    if s ∈ seen then dedup_keep_first seen rest
    else s :: dedup_keep_first (s :: seen) rest

/-- The raw (unclamped) score of a non-empty password: the sum of all additive
and subtractive contributions of source lines 174-247 (the source accumulates
them sequentially; addition is commutative, so the sum is the total). -/
def raw_score (pw : List Char) (cs : List (List Char)) : ℤ :=
  length_points pw.length + variety_points pw +
  exact_penalty cs (normalize_for_common_checks pw) +
  substring_penalty cs (normalize_for_common_checks pw) +
  sequence_penalty pw + repeat_penalty pw + template_penalty pw +
  entropy_adjustment pw

/-- The issue list of a non-empty password, in the source's append order. -/
def all_issues (pw : List Char) (cs : List (List Char)) : List String :=
  length_issues pw.length ++ variety_issues pw ++
  exact_issues cs (normalize_for_common_checks pw) ++
  substring_issues cs (normalize_for_common_checks pw) ++
  sequence_issues pw ++ repeat_issues pw ++ template_issues pw

/-- The suggestion list of a non-empty password: the source's append order,
then first-occurrence de-duplication (source lines 253-259). -/
def all_suggestions (pw : List Char) (cs : List (List Char)) : List String :=
  dedup_keep_first []
    (length_suggestions pw.length ++ variety_suggestions pw ++
     exact_suggestions cs (normalize_for_common_checks pw) ++
     substring_suggestions cs (normalize_for_common_checks pw) ++
     sequence_suggestions pw ++ repeat_suggestions pw ++
     template_suggestions pw ++ entropy_suggestions pw)

/-- `evaluate_password` (source lines 154-267).  The empty password returns
the fixed early result (lines 158-165); otherwise the score is the clamped
sum of all contributions and the rating is derived from the clamped score
(lines 249-251). -/
def evaluate_password (pw : List Char) (cs : List (List Char)) : CheckResult :=
  if pw = [] then
    { score := 0
      rating := "Very Weak"
      issues := ["Password is empty."]
      suggestions := ["Enter a password with at least 12–16 characters."] }
  else
    { score := max 0 (min 100 (raw_score pw cs))
      rating := rate_from_score (max 0 (min 100 (raw_score pw cs)))
      issues := all_issues pw cs
      suggestions := all_suggestions pw cs }

end PasswordChecker

namespace PasswordChecker

/-! ### Basic facts about the embedding -/

lemma evaluate_password_score (pw : List Char) (cs : List (List Char)) (h : pw ≠ []) :
    (evaluate_password pw cs).score = max 0 (min 100 (raw_score pw cs)) := by
  unfold evaluate_password
  rw [if_neg h]

lemma evaluate_password_rating (pw : List Char) (cs : List (List Char)) (h : pw ≠ []) :
    (evaluate_password pw cs).rating =
      rate_from_score (max 0 (min 100 (raw_score pw cs))) := by
  unfold evaluate_password
  rw [if_neg h]

lemma evaluate_password_issues (pw : List Char) (cs : List (List Char)) (h : pw ≠ []) :
    (evaluate_password pw cs).issues = all_issues pw cs := by
  unfold evaluate_password
  rw [if_neg h]

lemma rating_derived (pw : List Char) (cs : List (List Char)) :
    (evaluate_password pw cs).rating =
      rate_from_score ((evaluate_password pw cs).score) := by
  by_cases h : pw = []
  · subst h
    have he : evaluate_password [] cs =
        { score := 0, rating := "Very Weak", issues := ["Password is empty."],
          suggestions := ["Enter a password with at least 12–16 characters."] } := rfl
    rw [he]
    decide
  · unfold evaluate_password
    rw [if_neg h]

lemma pool_ge_ten (pw : List Char) (h : pw ≠ []) : 10 ≤ entropy_pool pw := by
  obtain ⟨c, rest, rfl⟩ := List.exists_cons_of_ne_nil h
  have hcls : has_lower (c :: rest) = true ∨ has_upper (c :: rest) = true ∨
      has_digit (c :: rest) = true ∨ has_symbol (c :: rest) = true := by
    by_cases h1 : c.isLower = true
    · exact Or.inl (by simp [has_lower, List.any_cons, h1])
    · by_cases h2 : c.isUpper = true
      · exact Or.inr (Or.inl (by simp [has_upper, List.any_cons, h2]))
      · by_cases h3 : c.isDigit = true
        · exact Or.inr (Or.inr (Or.inl (by simp [has_digit, List.any_cons, h3])))
        · refine Or.inr (Or.inr (Or.inr ?_))
          simp only [Bool.not_eq_true] at h1 h2 h3
          have hna : c.isAlphanum = false := by
            simp [Char.isAlphanum, Char.isAlpha, h1, h2, h3]
          simp [has_symbol, List.any_cons, hna]
  rcases hcls with h' | h' | h' | h' <;>
    simp only [entropy_pool, h', if_true] <;> split_ifs <;> omega

lemma nat_pow_le_iff_le_mul_logb (b n t : Nat) (hb : 2 ≤ b) :
    2 ^ t ≤ b ^ n ↔ (t : ℝ) ≤ (n : ℝ) * Real.logb 2 (b : ℝ) := by
  have hbN : 1 < b := lt_of_lt_of_le one_lt_two hb
  have hbR : (1 : ℝ) < (b : ℝ) := by exact_mod_cast hbN
  have hpos : (0 : ℝ) < (b : ℝ) ^ n := pow_pos (lt_trans zero_lt_one hbR) n
  rw [← Real.logb_pow, Real.le_logb_iff_rpow_le one_lt_two hpos, Real.rpow_natCast]
  constructor
  · intro hle
    exact_mod_cast hle
  · intro hle
    exact_mod_cast hle

lemma entropy_ge_iff (pw : List Char) (h : pw ≠ []) (t : Nat) :
    (t : ℝ) ≤ estimate_entropy_bits pw ↔
      2 ^ t ≤ entropy_pool pw ^ pw.length := by
  have hp : 10 ≤ entropy_pool pw := pool_ge_ten pw h
  have hp0 : ¬ entropy_pool pw = 0 := by omega
  rw [estimate_entropy_bits, if_neg h, if_neg hp0]
  exact (nat_pow_le_iff_le_mul_logb (entropy_pool pw) pw.length t (by omega)).symm

lemma entropy_ge_80_iff (pw : List Char) (h : pw ≠ []) :
    (80 : ℝ) ≤ estimate_entropy_bits pw ↔
      2 ^ 80 ≤ entropy_pool pw ^ pw.length := by
  have h' := entropy_ge_iff pw h 80
  exact_mod_cast h'

lemma estimate_nonneg (pw : List Char) : 0 ≤ estimate_entropy_bits pw := by
  by_cases h1 : pw = []
  · simp [estimate_entropy_bits, h1]
  · by_cases h2 : entropy_pool pw = 0
    · simp [estimate_entropy_bits, h1, h2]
    · rw [estimate_entropy_bits, if_neg h1, if_neg h2]
      apply mul_nonneg (Nat.cast_nonneg _)
      apply Real.logb_nonneg one_lt_two
      exact_mod_cast Nat.one_le_iff_ne_zero.mpr h2

lemma result_entropy_nonneg (pw : List Char) : 0 ≤ result_entropy_bits pw := by
  by_cases h : pw = []
  · simp [result_entropy_bits, h]
  · rw [result_entropy_bits, if_neg h]
    unfold round2
    have h0 : (0 : ℝ) ≤ estimate_entropy_bits pw := estimate_nonneg pw
    have hr : (0 : ℤ) ≤ round (100 * estimate_entropy_bits pw) := by
      rw [round_eq]
      exact Int.floor_nonneg.mpr (by linarith)
    have hrR : (0 : ℝ) ≤ (round (100 * estimate_entropy_bits pw) : ℤ) := by
      exact_mod_cast hr
    positivity

/-! ### Counting issue strings -/

lemma count_ite_singleton {c : Prop} [Decidable c] {a t : String} (h : ¬ t = a) :
    List.count t (if c then [a] else []) = 0 := by
  split
  · rw [List.count_eq_zero]
    simp [h]
  · rfl

lemma count_ite_singleton' {c : Prop} [Decidable c] {a t : String} (h : ¬ t = a) :
    List.count t (if c then [] else [a]) = 0 := by
  split
  · rfl
  · rw [List.count_eq_zero]
    simp [h]

lemma count_ite_singleton_le {c : Prop} [Decidable c] (a t : String) :
    List.count t (if c then [a] else []) ≤ 1 := by
  refine (List.count_le_length t _).trans ?_
  split <;> simp

lemma count_issues_split (pw : List Char) (cs : List (List Char)) (h : pw ≠ [])
    (t : String) :
    List.count t ((evaluate_password pw cs).issues) =
      List.count t (length_issues pw.length) + List.count t (variety_issues pw) +
      List.count t (exact_issues cs (normalize_for_common_checks pw)) +
      List.count t (substring_issues cs (normalize_for_common_checks pw)) +
      List.count t (sequence_issues pw) + List.count t (repeat_issues pw) +
      List.count t (template_issues pw) := by
  rw [evaluate_password_issues pw cs h]
  unfold all_issues
  simp only [List.count_append]

lemma count_variety_issues (pw : List Char) (t : String)
    (h1 : ¬ t = "No lowercase letters.") (h2 : ¬ t = "No uppercase letters.")
    (h3 : ¬ t = "No digits.") (h4 : ¬ t = "No symbols.") :
    List.count t (variety_issues pw) = 0 := by
  unfold variety_issues
  simp only [List.count_append]
  rw [count_ite_singleton' h1, count_ite_singleton' h2,
      count_ite_singleton' h3, count_ite_singleton' h4]

lemma count_repeat_issues (pw : List Char) (t : String)
    (h : ∀ k, k ≤ 6 →
      ¬ t = ("Contains repeated characters (e.g., \x27" ++
             String.mk (List.replicate k '*') ++ "\x27).")) :
    List.count t (repeat_issues pw) = 0 := by
  unfold repeat_issues
  split
  · rw [List.count_eq_zero]
    simp only [List.mem_singleton]
    exact h (min (repeated_characters pw).2 6) (min_le_right _ _)
  · rfl

end PasswordChecker

namespace PasswordChecker

lemma evaluate_password_nil (cs : List (List Char)) :
    evaluate_password [] cs =
      { score := 0, rating := "Very Weak", issues := ["Password is empty."],
        suggestions := ["Enter a password with at least 12–16 characters."] } := rfl

lemma isSubstring_self (l : List Char) : isSubstring l l = true := by
  unfold isSubstring
  rw [List.any_eq_true]
  refine ⟨0, ?_, ?_⟩
  · simp [List.mem_range]
  · simp [List.isPrefixOf_iff_prefix]

/-! ### The claims -/

/-- C1: for every password and every common-password list, the `score` of the
returned `CheckResult` is an integer in [0,100] — the raw accumulated total is
hard-clamped at both bounds — and the entropy estimate (both the raw value and
the rounded `entropy_bits` field) is non-negative. -/
theorem C1_score_clamped_entropy_nonneg (pw : List Char) (cs : List (List Char)) :
    0 ≤ (evaluate_password pw cs).score ∧ (evaluate_password pw cs).score ≤ 100 ∧
    0 ≤ estimate_entropy_bits pw ∧ 0 ≤ result_entropy_bits pw := by
  refine ⟨?_, ?_, estimate_nonneg pw, result_entropy_nonneg pw⟩
  · by_cases h : pw = []
    · subst h
      rw [evaluate_password_nil]
    · rw [evaluate_password_score pw cs h]
      exact le_max_left 0 _
  · by_cases h : pw = []
    · subst h
      rw [evaluate_password_nil]
      decide
    · rw [evaluate_password_score pw cs h]
      exact max_le (by norm_num) (min_le_left _ _)

/-- C3: the empty password short-circuits: score 0, rating Very Weak, entropy
0, the single issue and the single suggestion of source lines 158-165, with no
other detector contributing. -/
theorem C3_empty_password (cs : List (List Char)) :
    evaluate_password [] cs =
      { score := 0, rating := "Very Weak", issues := ["Password is empty."],
        suggestions := ["Enter a password with at least 12–16 characters."] } ∧
    estimate_entropy_bits [] = 0 ∧ result_entropy_bits [] = 0 :=
  ⟨evaluate_password_nil cs, rfl, rfl⟩

/-- C4: `rate_from_score` is monotone non-decreasing in the rating order
Very Weak < Weak < Moderate < Strong < Very Strong, realizes exactly the fixed
thresholds 85/70/50/30, and `evaluate_password` derives its rating exclusively
from the final clamped score. -/
theorem C4_rating_monotone_thresholds :
    (∀ s1 s2 : ℤ, s1 ≤ s2 →
      ratingRank (rate_from_score s1) ≤ ratingRank (rate_from_score s2)) ∧
    (∀ s : ℤ,
      (rate_from_score s = "Very Strong" ↔ 85 ≤ s) ∧
      (rate_from_score s = "Strong" ↔ 70 ≤ s ∧ s < 85) ∧
      (rate_from_score s = "Moderate" ↔ 50 ≤ s ∧ s < 70) ∧
      (rate_from_score s = "Weak" ↔ 30 ≤ s ∧ s < 50) ∧
      (rate_from_score s = "Very Weak" ↔ s < 30)) ∧
    (∀ (pw : List Char) (cs : List (List Char)),
      (evaluate_password pw cs).rating =
        rate_from_score ((evaluate_password pw cs).score)) := by
  refine ⟨?_, ?_, fun pw cs => rating_derived pw cs⟩
  · intro s1 s2 h
    unfold rate_from_score
    split_ifs <;> first | decide | omega
  · intro s
    unfold rate_from_score
    refine ⟨?_, ?_, ?_, ?_, ?_⟩ <;>
      (split_ifs <;> constructor <;> intro hx <;>
        first | rfl | omega | (exact absurd hx (by decide)))

theorem C4_witness :
    ((3 : ℤ) ≤ 97) ∧
    ratingRank (rate_from_score 3) ≤ ratingRank (rate_from_score 97) :=
  ⟨by decide, C4_rating_monotone_thresholds.1 3 97 (by decide)⟩

/-- C5: loading the common-password list never fails: an absent path, an empty
path, a missing file or an I/O error all fall back silently to the built-in
seed set, and a successful read yields exactly the seed set unioned with the
non-blank, non-comment trimmed lines, lower-cased. -/
theorem C5_load_never_fails (fs : String → ReadResult) (p : String)
    (lines : List (List Char)) :
    load_common_passwords none fs = default_common_passwords ∧
    load_common_passwords (some ("")) fs = default_common_passwords ∧
    (fs p = ReadResult.missing →
      load_common_passwords (some p) fs = default_common_passwords) ∧
    (fs p = ReadResult.ioError →
      load_common_passwords (some p) fs = default_common_passwords) ∧
    (p ≠ "" → fs p = ReadResult.ok lines →
      ∀ x, x ∈ load_common_passwords (some p) fs ↔
        x ∈ default_common_passwords ∨ x ∈ process_lines lines) := by
  refine ⟨rfl, by simp [load_common_passwords], ?_, ?_, ?_⟩
  · intro hmiss
    by_cases hp : p = ""
    · simp [load_common_passwords, hp]
    · simp [load_common_passwords, hp, hmiss]
  · intro hio
    by_cases hp : p = ""
    · simp [load_common_passwords, hp]
    · simp [load_common_passwords, hp, hio]
  · intro hp hok x
    simp [load_common_passwords, hp, hok, List.mem_append]

def c5_fs : String → ReadResult := fun _ => ReadResult.missing

theorem C5_witness :
    c5_fs ("wordlist.txt") = ReadResult.missing ∧
    load_common_passwords (some ("wordlist.txt")) c5_fs = default_common_passwords :=
  ⟨rfl, (C5_load_never_fails c5_fs ("wordlist.txt") []).2.2.1 rfl⟩

/-- C6: the common-substring step looks at most at the first 5000 entries of
the common list — its outcome is a function of `cs.take 5000` alone — and the
-20 penalty and its issue are applied at most once per evaluation, however
many entries match. -/
theorem C6_substring_scan_capped (cs cs' : List (List Char)) (pw : List Char) :
    (cs.take 5000 = cs'.take 5000 →
      common_substring_hit cs (normalize_for_common_checks pw) =
        common_substring_hit cs' (normalize_for_common_checks pw)) ∧
    (substring_penalty cs (normalize_for_common_checks pw) = 0 ∨
      substring_penalty cs (normalize_for_common_checks pw) = -20) ∧
    List.count ("Contains a common password word/pattern.")
      ((evaluate_password pw cs).issues) ≤ 1 := by
  refine ⟨?_, ?_, ?_⟩
  · intro hEq
    unfold common_substring_hit
    rw [hEq]
  · unfold substring_penalty
    split
    · exact Or.inr rfl
    · exact Or.inl rfl
  · by_cases h : pw = []
    · subst h
      rw [evaluate_password_nil]
      decide
    · rw [count_issues_split pw cs h _]
      simp only [length_issues, exact_issues, sequence_issues, template_issues]
      rw [count_ite_singleton (by decide),
          count_variety_issues pw _ (by decide) (by decide) (by decide) (by decide),
          count_ite_singleton (by decide), count_ite_singleton (by decide),
          count_repeat_issues pw _ (by intro k hk; interval_cases k <;> decide),
          count_ite_singleton (by decide)]
      simp only [Nat.zero_add, Nat.add_zero]
      unfold substring_issues
      exact count_ite_singleton_le _ _

def c6_junk : List (List Char) := List.replicate 5000 ("q".toList)

def c6A : List (List Char) := c6_junk ++ ["password".toList]

theorem C6_witness :
    c6A.take 5000 = c6_junk.take 5000 ∧
    common_substring_hit c6A (normalize_for_common_checks ("Dragon7".toList)) =
      common_substring_hit c6_junk (normalize_for_common_checks ("Dragon7".toList)) := by
  have hl : c6_junk.length = 5000 := by
    unfold c6_junk
    exact List.length_replicate 5000 _
  have h1 : c6A.take 5000 = c6_junk := by
    unfold c6A
    exact List.take_left' hl
  have h2 : c6_junk.take 5000 = c6_junk := by
    rw [← hl, List.take_length]
  have hEq : c6A.take 5000 = c6_junk.take 5000 := by rw [h1, h2]
  exact ⟨hEq, (C6_substring_scan_capped c6A c6_junk ("Dragon7".toList)).1 hEq⟩

/-- C7: normalization maps P@ssw0rd to password (trim, lower-case, then the
substitutions applied sequentially), password is in the seed set, and
evaluating P@ssw0rd against the seed set takes the -40 exact-match penalty
with its issue and suggestion. -/
theorem C7_normalize_p_at_ssw0rd :
    normalize_for_common_checks ("P@ssw0rd".toList) = "password".toList ∧
    ("password".toList) ∈ default_common_passwords ∧
    exact_penalty default_common_passwords
      (normalize_for_common_checks ("P@ssw0rd".toList)) = -40 ∧
    ("Appears in common password lists.") ∈
      (evaluate_password ("P@ssw0rd".toList) default_common_passwords).issues ∧
    ("Avoid common passwords; use a unique passphrase.") ∈
      (evaluate_password ("P@ssw0rd".toList) default_common_passwords).suggestions :=
  ⟨by decide, by decide, by decide, by decide, by decide⟩

/-- C8: for abcd1234 the monotonic-sequence detector fires (both the abcd and
the 1234 window qualify), the keyboard detector fires as well, and yet the -15
sequence penalty and its issue are applied exactly once; in general the
sequence issue occurs at most once in any evaluation. -/
theorem C8_sequence_penalized_once :
    has_simple_sequence ("abcd".toList) 4 = true ∧
    has_simple_sequence ("1234".toList) 4 = true ∧
    has_simple_sequence ("abcd1234".toList) 4 = true ∧
    has_keyboard_sequence ("abcd1234".toList) 4 = true ∧
    sequence_penalty ("abcd1234".toList) = -15 ∧
    List.count ("Contains an easy sequence (keyboard or ordered characters).")
      ((evaluate_password ("abcd1234".toList) default_common_passwords).issues) = 1 ∧
    (∀ (pw : List Char) (cs : List (List Char)),
      List.count ("Contains an easy sequence (keyboard or ordered characters).")
        ((evaluate_password pw cs).issues) ≤ 1) := by
  refine ⟨by decide, by decide, by decide, by decide, by decide, by decide, ?_⟩
  intro pw cs
  by_cases h : pw = []
  · subst h
    rw [evaluate_password_nil]
    decide
  · rw [count_issues_split pw cs h _]
    simp only [length_issues, exact_issues, substring_issues, template_issues]
    rw [count_ite_singleton (by decide),
        count_variety_issues pw _ (by decide) (by decide) (by decide) (by decide),
        count_ite_singleton (by decide), count_ite_singleton (by decide),
        count_repeat_issues pw _ (by intro k hk; interval_cases k <;> decide),
        count_ite_singleton (by decide)]
    simp only [Nat.zero_add, Nat.add_zero]
    unfold sequence_issues
    exact count_ite_singleton_le _ _

/-- C9: every non-empty password has character-pool size at least 10 (each
character belongs to at least one of the four classes, the symbol class being
the complement of the other three), so the pool-size-0 branch after the
emptiness check is unreachable and the entropy of a non-empty password is
strictly positive. -/
theorem C9_pool_at_least_ten (pw : List Char) (h : pw ≠ []) :
    10 ≤ entropy_pool pw ∧ entropy_pool pw ≠ 0 ∧
    estimate_entropy_bits pw =
      (pw.length : ℝ) * Real.logb 2 (entropy_pool pw) ∧
    0 < estimate_entropy_bits pw := by
  have hp := pool_ge_ten pw h
  have hp0 : entropy_pool pw ≠ 0 := by omega
  refine ⟨hp, hp0, ?_, ?_⟩
  · rw [estimate_entropy_bits, if_neg h, if_neg hp0]
  · rw [estimate_entropy_bits, if_neg h, if_neg hp0]
    apply mul_pos
    · exact_mod_cast List.length_pos.mpr h
    · refine Real.logb_pos one_lt_two ?_
      exact_mod_cast (by omega : 1 < entropy_pool pw)

theorem C9_witness :
    (("a".toList : List Char) ≠ []) ∧ 10 ≤ entropy_pool ("a".toList) ∧
    0 < estimate_entropy_bits ("a".toList) :=
  ⟨by decide, (C9_pool_at_least_ten ("a".toList) (by decide)).1,
    (C9_pool_at_least_ten ("a".toList) (by decide)).2.2.2⟩

/-- C10: the exact-match and substring penalties are not mutually exclusive:
whenever the normalized password is itself a member of the common list, has
length at least 6, and occurs among the first 5000 scanned entries, both the
-40 and the -20 penalty apply (a combined -60) and both issues are appended. -/
theorem C10_exact_and_substring_both_fire (pw : List Char) (cs : List (List Char))
    (h1 : normalize_for_common_checks pw ∈ cs)
    (h2 : 6 ≤ (normalize_for_common_checks pw).length)
    (h3 : normalize_for_common_checks pw ∈ cs.take 5000) :
    exact_penalty cs (normalize_for_common_checks pw) = -40 ∧
    substring_penalty cs (normalize_for_common_checks pw) = -20 ∧
    ("Appears in common password lists.") ∈ (evaluate_password pw cs).issues ∧
    ("Contains a common password word/pattern.") ∈ (evaluate_password pw cs).issues ∧
    (evaluate_password pw cs).score =
      max 0 (min 100 (length_points pw.length + variety_points pw +
        sequence_penalty pw + repeat_penalty pw + template_penalty pw +
        entropy_adjustment pw - 60)) := by
  have hne : pw ≠ [] := by
    intro he
    rw [he] at h2
    exact absurd h2 (by decide)
  have hhit : common_substring_hit cs (normalize_for_common_checks pw) = true := by
    unfold common_substring_hit
    rw [List.any_eq_true]
    refine ⟨normalize_for_common_checks pw, h3, ?_⟩
    rw [Bool.and_eq_true, decide_eq_true_iff]
    exact ⟨h2, isSubstring_self _⟩
  have hex : exact_penalty cs (normalize_for_common_checks pw) = -40 := by
    unfold exact_penalty
    rw [if_pos h1]
  have hsub : substring_penalty cs (normalize_for_common_checks pw) = -20 := by
    unfold substring_penalty
    rw [if_pos hhit]
  refine ⟨hex, hsub, ?_, ?_, ?_⟩
  · rw [evaluate_password_issues pw cs hne]
    simp [all_issues, exact_issues, h1, List.mem_append]
  · rw [evaluate_password_issues pw cs hne]
    simp [all_issues, substring_issues, hhit, List.mem_append]
  · rw [evaluate_password_score pw cs hne]
    unfold raw_score
    rw [hex, hsub]
    have harith : length_points pw.length + variety_points pw + -40 + -20 +
        sequence_penalty pw + repeat_penalty pw + template_penalty pw +
        entropy_adjustment pw =
        length_points pw.length + variety_points pw + sequence_penalty pw +
        repeat_penalty pw + template_penalty pw + entropy_adjustment pw - 60 := by
      ring
    rw [harith]

theorem C10_witness :
    (normalize_for_common_checks ("password".toList) ∈ default_common_passwords) ∧
    6 ≤ (normalize_for_common_checks ("password".toList)).length ∧
    (normalize_for_common_checks ("password".toList) ∈
      default_common_passwords.take 5000) ∧
    exact_penalty default_common_passwords
      (normalize_for_common_checks ("password".toList)) = -40 ∧
    substring_penalty default_common_passwords
      (normalize_for_common_checks ("password".toList)) = -20 :=
  ⟨by decide, by decide, by decide,
    (C10_exact_and_substring_both_fire ("password".toList) default_common_passwords
      (by decide) (by decide) (by decide)).1,
    (C10_exact_and_substring_both_fire ("password".toList) default_common_passwords
      (by decide) (by decide) (by decide)).2.1⟩

end PasswordChecker

namespace PasswordChecker

/-- A 20-character password meeting every hypothesis of claim C2 as stated
(all four classes, no common word exact or substring, no keyboard or
monotonic sequence, no repeat run, entropy at least 80 bits) that nevertheless
matches the word+digits+symbol template and so loses 10 points. -/
def c2_counter_pw : List Char := "AqZmWpXnKtRbVcJdG19!".toList

/-- A 20-character password meeting every hypothesis of claim C2 and also not
matching the word+digits(+symbol) template. -/
def c2_witness_pw : List Char := "AqZmWpXnKtRbVc1d9G!x".toList

/-- C2 (counterexample): `c2_counter_pw` satisfies every hypothesis of the
claim as stated — 20 characters, all four classes present, no common-set word
exact or as a length-6-or-more substring of the normalization, no keyboard or
monotonic sequence, no repeated run of 4+, estimated entropy at least 80
bits — yet its final score is 80 and its rating is Strong, not at least 85
and Very Strong: the whole-password word+digits+symbol template penalty
(source line 236) also fires on it. -/
theorem C2_counterexample :
    c2_counter_pw.length = 20 ∧
    has_lower c2_counter_pw = true ∧ has_upper c2_counter_pw = true ∧
    has_digit c2_counter_pw = true ∧ has_symbol c2_counter_pw = true ∧
    (normalize_for_common_checks c2_counter_pw ∉ default_common_passwords) ∧
    common_substring_hit default_common_passwords
      (normalize_for_common_checks c2_counter_pw) = false ∧
    has_keyboard_sequence (toLowerStr c2_counter_pw) 4 = false ∧
    has_simple_sequence (toLowerStr c2_counter_pw) 4 = false ∧
    (repeated_characters c2_counter_pw).1 = false ∧
    (80 : ℝ) ≤ estimate_entropy_bits c2_counter_pw ∧
    (evaluate_password c2_counter_pw default_common_passwords).score = 80 ∧
    (evaluate_password c2_counter_pw default_common_passwords).rating = "Strong" := by
  refine ⟨by decide, by decide, by decide, by decide, by decide, by decide,
    by decide, by decide, by decide, by decide, ?_, by decide, by decide⟩
  rw [entropy_ge_80_iff c2_counter_pw (by decide)]
  decide

/-- C2 (amended): every 20-character password that contains all four character
classes, contains no common-set word (exact or length-6-or-more substring
after normalization), no keyboard or monotonic sequence, no repeated run of
4+, does not match the whole-password word+digits(+symbol) template, and
whose estimated entropy is at least 80 bits, receives a final score of at
least 85 and therefore the rating Very Strong. -/
theorem C2_very_strong_of_clean_20_chars (pw : List Char) (cs : List (List Char))
    (hlen : pw.length = 20)
    (hl : has_lower pw = true) (hu : has_upper pw = true)
    (hd : has_digit pw = true) (hs : has_symbol pw = true)
    (hex : normalize_for_common_checks pw ∉ cs)
    (hsub : common_substring_hit cs (normalize_for_common_checks pw) = false)
    (hkb : has_keyboard_sequence (toLowerStr pw) 4 = false)
    (hms : has_simple_sequence (toLowerStr pw) 4 = false)
    (hrep : (repeated_characters pw).1 = false)
    (htpl : template_match pw = false)
    (hent : (80 : ℝ) ≤ estimate_entropy_bits pw) :
    85 ≤ (evaluate_password pw cs).score ∧
    (evaluate_password pw cs).rating = "Very Strong" := by
  have hne : pw ≠ [] := by
    intro he
    rw [he] at hlen
    exact absurd hlen (by decide)
  have h80 : 2 ^ 80 ≤ entropy_pool pw ^ pw.length :=
    (entropy_ge_80_iff pw hne).mp hent
  have e0 : length_points pw.length = 40 := by
    rw [hlen]
    decide
  have e2 : variety_points pw = 40 := by
    simp [variety_points, variety_count, hl, hu, hd, hs]
  have e3 : exact_penalty cs (normalize_for_common_checks pw) = 0 := by
    simp [exact_penalty, hex]
  have e4 : substring_penalty cs (normalize_for_common_checks pw) = 0 := by
    simp [substring_penalty, hsub]
  have e5 : sequence_penalty pw = 0 := by
    simp [sequence_penalty, sequence_hit, hkb, hms]
  have e6 : repeat_penalty pw = 0 := by
    simp [repeat_penalty, hrep]
  have e7 : template_penalty pw = 0 := by
    simp [template_penalty, htpl]
  have e8 : entropy_adjustment pw = 10 := by
    unfold entropy_adjustment
    rw [if_pos h80]
  have hscore : (evaluate_password pw cs).score = 90 := by
    rw [evaluate_password_score pw cs hne]
    unfold raw_score
    rw [e0, e2, e3, e4, e5, e6, e7, e8]
    decide
  refine ⟨by rw [hscore]; decide, ?_⟩
  rw [rating_derived pw cs, hscore]
  decide

theorem C2_witness :
    c2_witness_pw.length = 20 ∧
    has_lower c2_witness_pw = true ∧ has_upper c2_witness_pw = true ∧
    has_digit c2_witness_pw = true ∧ has_symbol c2_witness_pw = true ∧
    (normalize_for_common_checks c2_witness_pw ∉ default_common_passwords) ∧
    common_substring_hit default_common_passwords
      (normalize_for_common_checks c2_witness_pw) = false ∧
    has_keyboard_sequence (toLowerStr c2_witness_pw) 4 = false ∧
    has_simple_sequence (toLowerStr c2_witness_pw) 4 = false ∧
    (repeated_characters c2_witness_pw).1 = false ∧
    template_match c2_witness_pw = false ∧
    85 ≤ (evaluate_password c2_witness_pw default_common_passwords).score ∧
    (evaluate_password c2_witness_pw default_common_passwords).rating = "Very Strong" := by
  have h := C2_very_strong_of_clean_20_chars c2_witness_pw default_common_passwords
    (by decide) (by decide) (by decide) (by decide) (by decide) (by decide)
    (by decide) (by decide) (by decide) (by decide) (by decide)
    ((entropy_ge_80_iff c2_witness_pw (by decide)).mpr (by decide))
  exact ⟨by decide, by decide, by decide, by decide, by decide, by decide,
    by decide, by decide, by decide, by decide, by decide, h.1, h.2⟩

end PasswordChecker
